import Mathlib

/-!
Verification of the provy role lifecycle and convergence engine
(`provy/core/roles.py`) via a shallow embedding in Lean 4.

The embedding models:
* the cleanup registry and `Role.schedule_cleanup` (class-identity dedup);
* `Role.register_template_loader` over the context's loader lists;
* the `UsingRole` context manager (`Role.using`) as a function on an
  explicit world state, with the Python `with`-statement semantics
  (body may raise; `__exit__` runs either way and, returning `None`,
  lets the exception propagate);
* `Role.update_file`, `Role.put_file`, `Role.write_to_temp_file` over an
  explicit state holding the remote file table, the local temp-file
  table and a trace of mutating remote operations, with failure
  injection for the transport upload and for template rendering;
* `Role.remote_symlink` over a remote table whose entries are regular
  files or symlinks.
-/

namespace Provy

/-- Association-list lookup on string keys (first match wins). -/
def lookupA {α : Type} (k : String) : List (String × α) → Option α
  | [] => none
  | (k', v) :: rest => if k = k' then some v else lookupA k rest

/-- Association-list update: replace the first binding of `k`, or append. -/
def setA {α : Type} (k : String) (v : α) : List (String × α) → List (String × α)
  | [] => [(k, v)]
  | (k', v') :: rest => if k = k' then (k, v) :: rest else (k', v') :: setA k v rest

theorem lookupA_setA_self {α : Type} (k : String) (v : α) (l : List (String × α)) :
    lookupA k (setA k v l) = some v := by
  induction l with
  | nil => simp [setA, lookupA]
  | cons hd tl ih =>
    by_cases h : k = hd.1
    · simp [setA, h, lookupA]
    · simp [setA, h, lookupA, ih]

theorem lookupA_setA_other {α : Type} (k k' : String) (v : α) (l : List (String × α))
    (h : k' ≠ k) : lookupA k' (setA k v l) = lookupA k' l := by
  induction l with
  | nil => simp [setA, lookupA, h]
  | cons hd tl ih =>
    by_cases hk : k = hd.1
    · subst hk
      simp [setA, lookupA, h, ih]
    · by_cases hk' : k' = hd.1
      · simp [setA, hk, lookupA, hk']
      · simp [setA, hk, lookupA, hk', ih]

/-! ## Roles, cleanup scheduling, template-loader registration -/

/-- A role instance: `cls` is the runtime class identity (Python
`role.__class__`), `instId` the object identity of this particular
instance, `args` stands for any instance data / constructor arguments. -/
structure RoleInst where
  cls : Nat
  instId : Nat
  args : List String
  deriving Repr, DecidableEq

/-- `Role.schedule_cleanup`: scan `context['cleanup']` for an entry whose
class equals `self`'s class (the Python `for` loop sets `has_role`);
append `self` only when none was found. -/
def schedule_cleanup (self : RoleInst) (cleanup : List RoleInst) : List RoleInst :=
  let has_role := cleanup.foldl (fun acc role => acc || (role.cls == self.cls)) false
  if has_role then cleanup else cleanup ++ [self]

/-- Folding a whole sequence of `schedule_cleanup` calls over a registry. -/
def scheduleAll (init : List RoleInst) (insts : List RoleInst) : List RoleInst :=
  insts.foldl (fun acc r => schedule_cleanup r acc) init

/-- The registry never holds two entries of the same runtime class. -/
def noDupClass (l : List RoleInst) : Prop :=
  l.Pairwise (fun a b => a.cls ≠ b.cls)

theorem foldl_or_eq_any (c : Nat) (l : List RoleInst) :
    l.foldl (fun acc role => acc || (role.cls == c)) false
      = l.any (fun role => role.cls == c) := by
  have general : ∀ (l : List RoleInst) (b : Bool),
      l.foldl (fun acc role => acc || (role.cls == c)) b
        = (b || l.any (fun role => role.cls == c)) := by
    intro l
    induction l with
    | nil => intro b; simp
    | cons hd tl ih =>
      intro b
      simp [List.foldl_cons, List.any_cons, ih, Bool.or_assoc]
  simpa using general l false

theorem schedule_cleanup_mem (self : RoleInst) (cleanup : List RoleInst)
    (h : ∃ x ∈ cleanup, x.cls = self.cls) :
    schedule_cleanup self cleanup = cleanup := by
  obtain ⟨x, hx, hcls⟩ := h
  have : cleanup.any (fun role => role.cls == self.cls) = true := by
    simp only [List.any_eq_true]
    exact ⟨x, hx, by simp [hcls]⟩
  simp [schedule_cleanup, foldl_or_eq_any, this]

theorem schedule_cleanup_not_mem (self : RoleInst) (cleanup : List RoleInst)
    (h : ∀ x ∈ cleanup, x.cls ≠ self.cls) :
    schedule_cleanup self cleanup = cleanup ++ [self] := by
  have : cleanup.any (fun role => role.cls == self.cls) = false := by
    simp only [List.any_eq_false]
    intro x hx
    simp [h x hx]
  simp [schedule_cleanup, foldl_or_eq_any, this]

theorem schedule_cleanup_noDup (self : RoleInst) (cleanup : List RoleInst)
    (h : noDupClass cleanup) : noDupClass (schedule_cleanup self cleanup) := by
  by_cases hmem : ∃ x ∈ cleanup, x.cls = self.cls
  · rw [schedule_cleanup_mem self cleanup hmem]; exact h
  · push_neg at hmem
    rw [schedule_cleanup_not_mem self cleanup hmem]
    unfold noDupClass at h ⊢
    rw [List.pairwise_append]
    refine ⟨h, by simp, ?_⟩
    intro a ha b hb
    simp only [List.mem_singleton] at hb
    subst hb
    exact hmem a ha

theorem scheduleAll_noDup (insts : List RoleInst) (init : List RoleInst)
    (h : noDupClass init) : noDupClass (scheduleAll init insts) := by
  induction insts generalizing init with
  | nil => exact h
  | cons hd tl ih =>
    exact ih (schedule_cleanup hd init) (schedule_cleanup_noDup hd init h)

theorem scheduleAll_same_class (c : Nat) (insts : List RoleInst)
    (hall : ∀ r ∈ insts, r.cls = c) (first : RoleInst) (rest : List RoleInst)
    (hshape : insts = first :: rest) :
    scheduleAll [] insts = [first] := by
  subst hshape
  have hfirst : first.cls = c := hall first (by simp)
  have step1 : scheduleAll [] (first :: rest) = scheduleAll [first] rest := by
    simp [scheduleAll, List.foldl_cons, schedule_cleanup]
  rw [step1]
  have : ∀ (l : List RoleInst), (∀ r ∈ l, r.cls = c) → scheduleAll [first] l = [first] := by
    intro l
    induction l with
    | nil => intro _; rfl
    | cons hd tl ih =>
      intro hl
      have hd_cls : hd.cls = c := hl hd (by simp)
      have : schedule_cleanup hd [first] = [first] := by
        apply schedule_cleanup_mem
        exact ⟨first, by simp, by rw [hfirst, hd_cls]⟩
      simp only [scheduleAll, List.foldl_cons, this]
      exact ih (fun r hr => hl r (by simp [hr]))
  exact this rest (fun r hr => hall r (by simp [hr]))

/-- C3: within one host run the cleanup registry never contains two
entries of the same runtime class; scheduling N ≥ 1 instances of one
class from an empty registry leaves exactly one entry; and dedup is by
class identity alone — an instance whose class is already present is
not appended, whatever its identity or constructor arguments. -/
theorem cleanup_dedup_spec (insts init : List RoleInst) (c : Nat)
    (first r x : RoleInst) (rest acc : List RoleInst)
    (hinit : noDupClass init)
    (hshape : insts = first :: rest)
    (hall : ∀ i ∈ insts, i.cls = c)
    (hx : x ∈ acc) (hcls : x.cls = r.cls) :
    noDupClass (scheduleAll init insts)
      ∧ scheduleAll [] insts = [first]
      ∧ schedule_cleanup r acc = acc := by
  refine ⟨scheduleAll_noDup insts init hinit,
          scheduleAll_same_class c insts hall first rest hshape,
          schedule_cleanup_mem r acc ⟨x, hx, hcls⟩⟩

theorem cleanup_dedup_spec_witness :
    noDupClass (scheduleAll [] [⟨5, 0, []⟩, ⟨5, 1, ["a"]⟩, ⟨5, 2, []⟩])
      ∧ scheduleAll [] [⟨5, 0, []⟩, ⟨5, 1, ["a"]⟩, ⟨5, 2, []⟩] = [⟨5, 0, []⟩]
      ∧ schedule_cleanup ⟨5, 7, ["b"]⟩ [⟨5, 0, []⟩] = [⟨5, 0, []⟩] :=
  cleanup_dedup_spec [⟨5, 0, []⟩, ⟨5, 1, ["a"]⟩, ⟨5, 2, []⟩] [] 5
    ⟨5, 0, []⟩ ⟨5, 7, ["b"]⟩ ⟨5, 0, []⟩ [⟨5, 1, ["a"]⟩, ⟨5, 2, []⟩] [⟨5, 0, []⟩]
    (by simp [noDupClass]) rfl (by intro i hi; fin_cases hi <;> rfl)
    (by simp) rfl

/-! ## Template-loader registration -/

/-- The loader-related slice of the per-host context: `loaders` models
`context['loader'].loaders` (a `PackageLoader(package_name)` is
represented by its package name), `registered_loaders` models
`context['registered_loaders']`. -/
structure LoaderCtx where
  loaders : List String
  registered_loaders : List String
  deriving Repr, DecidableEq

/-- `Role.register_template_loader`: when `package_name` is not yet in
`registered_loaders`, append a loader for it and record the name. -/
def register_template_loader (package_name : String) (c : LoaderCtx) : LoaderCtx :=
  if package_name ∈ c.registered_loaders then c
  else { loaders := c.loaders ++ [package_name],
         registered_loaders := c.registered_loaders ++ [package_name] }

theorem register_mem_after (package_name : String) (c : LoaderCtx) :
    package_name ∈ (register_template_loader package_name c).registered_loaders := by
  by_cases h : package_name ∈ c.registered_loaders
  · simp [register_template_loader, h]
  · simp [register_template_loader, h]

theorem register_idem (package_name : String) (c : LoaderCtx) :
    register_template_loader package_name (register_template_loader package_name c)
      = register_template_loader package_name c := by
  have h := register_mem_after package_name c
  conv_lhs => rw [register_template_loader]
  simp [h]

/-- C4: registering the same source identifier `k ≥ 1` times has the same
effect on the context as registering it once; when the identifier was not
yet registered, exactly one loader entry is appended and the identifier
occurs exactly once in `registered_loaders` afterwards. -/
theorem register_template_loader_idem (package_name : String) (c : LoaderCtx) (k : Nat)
    (hk : 1 ≤ k) (hnew : package_name ∉ c.registered_loaders) :
    Nat.iterate (register_template_loader package_name) k c
        = register_template_loader package_name c
      ∧ (register_template_loader package_name c).loaders = c.loaders ++ [package_name]
      ∧ List.count package_name
          (register_template_loader package_name c).registered_loaders = 1 := by
  refine ⟨?_, ?_, ?_⟩
  · obtain ⟨m, rfl⟩ : ∃ m, k = m + 1 := ⟨k - 1, by omega⟩
    clear hk
    induction m with
    | zero => rfl
    | succ n ih =>
      have step : Nat.iterate (register_template_loader package_name) (n + 1 + 1) c
          = register_template_loader package_name
              (Nat.iterate (register_template_loader package_name) (n + 1) c) := by
        rw [Function.iterate_succ_apply']
      rw [step, ih, register_idem]
  · simp [register_template_loader, hnew]
  · have hcount : List.count package_name c.registered_loaders = 0 :=
      List.count_eq_zero.mpr hnew
    simp [register_template_loader, hnew, List.count_append, hcount]

theorem register_template_loader_idem_witness :
    (Nat.iterate (register_template_loader "my.pkg") 3 ⟨["base"], ["base"]⟩
        = register_template_loader "my.pkg" ⟨["base"], ["base"]⟩)
      ∧ (register_template_loader "my.pkg"
          (⟨["base"], ["base"]⟩ : LoaderCtx)).loaders = ["base"] ++ ["my.pkg"]
      ∧ List.count "my.pkg"
          (register_template_loader "my.pkg"
            (⟨["base"], ["base"]⟩ : LoaderCtx)).registered_loaders = 1 :=
  register_template_loader_idem "my.pkg" ⟨["base"], ["base"]⟩ 3
    (by decide) (by decide)

/-! ## The `using` scope guard (`UsingRole`) -/

/-- World state threaded through a scoped role use: `nextId` is the next
object identity handed out by construction, `cleanup` the registry,
`provisionTrace` records every instance whose `provision()` ran. -/
structure RWorld where
  nextId : Nat
  cleanup : List RoleInst
  provisionTrace : List RoleInst
  deriving Repr, DecidableEq

/-- Constructing `role(prov, context)`: a fresh instance of class `cls`
with a fresh object identity and default (constructor) state. -/
def constructRole (cls : Nat) (w : RWorld) : RoleInst × RWorld :=
  (⟨cls, w.nextId, []⟩, { w with nextId := w.nextId + 1 })

/-- Running `role.provision()` (recorded in the trace). -/
def runProvision (r : RoleInst) (w : RWorld) : RWorld :=
  { w with provisionTrace := w.provisionTrace ++ [r] }

/-- `UsingRole.__enter__`: construct the role, call `provision()`,
yield the instance. -/
def usingEnter (cls : Nat) (w : RWorld) : RoleInst × RWorld :=
  let (role, w1) := constructRole cls w
  (role, runProvision role w1)

/-- `UsingRole.__exit__`: construct a fresh instance of the same role
class and call `schedule_cleanup()` on it. -/
def usingExit (cls : Nat) (w : RWorld) : RWorld :=
  let (role, w1) := constructRole cls w
  { w1 with cleanup := schedule_cleanup role w1.cleanup }

/-- Python `with self.using(role) as r: body` — `__enter__`, then the
body (which may raise, returning `some exc`), then `__exit__` on both
paths; `__exit__` returns `None`, so the body's exception propagates. -/
def withUsing (cls : Nat) (body : RoleInst → RWorld → RWorld × Option String)
    (w : RWorld) : RWorld × Option String :=
  let (role, w1) := usingEnter cls w
  let (w2, exc) := body role w1
  (usingExit cls w2, exc)

/-- C9: under `using`, the body receives a freshly constructed instance
whose `provision()` ran on entry; on exit — normal or exceptional — a
*fresh* instance of the same class (default state, distinct object
identity from the yielded one) is the one passed to `schedule_cleanup`,
and the body's exception propagates unchanged. -/
theorem usingRole_spec (cls : Nat) (body : RoleInst → RWorld → RWorld × Option String)
    (w : RWorld)
    (hmono : ∀ r w', w'.nextId ≤ (body r w').1.nextId) :
    ∃ w2 exc,
      body ⟨cls, w.nextId, []⟩
          (runProvision ⟨cls, w.nextId, []⟩ { w with nextId := w.nextId + 1 }) = (w2, exc)
        ∧ withUsing cls body w
            = ({ w2 with nextId := w2.nextId + 1,
                         cleanup := schedule_cleanup ⟨cls, w2.nextId, []⟩ w2.cleanup }, exc)
        ∧ (⟨cls, w2.nextId, []⟩ : RoleInst).cls = cls
        ∧ (⟨cls, w2.nextId, []⟩ : RoleInst).instId
            ≠ (⟨cls, w.nextId, []⟩ : RoleInst).instId := by
  set role : RoleInst := ⟨cls, w.nextId, []⟩ with hrole
  set w1 : RWorld := runProvision role { w with nextId := w.nextId + 1 } with hw1
  refine ⟨(body role w1).1, (body role w1).2, rfl, ?_, rfl, ?_⟩
  · show withUsing cls body w = _
    unfold withUsing usingEnter usingExit constructRole
    simp only [← hrole, ← hw1]
  · have h1 : w1.nextId = w.nextId + 1 := rfl
    have h2 := hmono role w1
    simp only [RoleInst.instId]
    omega

theorem usingRole_spec_witness :
    ∃ w2 exc,
      (fun (_ : RoleInst) (w' : RWorld) => (w', some "boom")) (⟨3, 0, []⟩ : RoleInst)
          (runProvision ⟨3, 0, []⟩ { nextId := 1, cleanup := [], provisionTrace := [] })
            = (w2, exc)
        ∧ withUsing 3 (fun _ w' => (w', some "boom"))
            ⟨0, [], []⟩
            = ({ w2 with nextId := w2.nextId + 1,
                         cleanup := schedule_cleanup ⟨3, w2.nextId, []⟩ w2.cleanup }, exc)
        ∧ (⟨3, w2.nextId, []⟩ : RoleInst).cls = 3
        ∧ (⟨3, w2.nextId, []⟩ : RoleInst).instId ≠ (⟨3, 0, []⟩ : RoleInst).instId :=
  usingRole_spec 3 (fun _ w' => (w', some "boom")) ⟨0, [], []⟩
    (fun _ w' => Nat.le_refl w'.nextId)

/-! ## File push (`update_file` / `put_file` / `write_to_temp_file`) -/

namespace FilePush

/-- External collaborators of `update_file`: the content digest used on
both sides (`md5(...).hexdigest()` locally and remotely — any digest
function, applied identically on both sides), the template renderer
(`self.render(from_file, options)`, which may fail), the remote
temporary directory (`self.remote_temp_dir()`), and whether the
transport upload (`fabric.put`) succeeds. -/
structure Env where
  md5 : String → String
  render : String → List (String × String) → Except Unit String
  remoteTmp : String
  putOk : Bool

/-- Remote operations that mutate the target host (read-only commands
such as `test -f` and the remote hash query are not mutations and are
not traced). -/
inductive MutOp where
  | upload (src dst : String)
  | cpSudo (src dst : String)
  | chown (path owner : String)
  deriving Repr, DecidableEq

/-- State threaded through a push: the remote file table (path to
content), the local temp-file table, the next local temp-file number,
and the trace of mutating remote operations. -/
structure FS where
  remote : List (String × String)
  localTemp : List (String × String)
  nextTemp : Nat
  trace : List MutOp
  deriving Repr, DecidableEq

/-- Name of the n-th local temporary file (`NamedTemporaryFile`). -/
def tempName (n : Nat) : String := "/tmp/tmp" ++ toString n

/-- `Role.write_to_temp_file`: write the text to a fresh named temporary
file (not auto-deleted) and return its path. -/
def write_to_temp_file (text : String) (s : FS) : String × FS :=
  let local_temp_path := tempName s.nextTemp
  (local_temp_path,
    { s with nextTemp := s.nextTemp + 1,
             localTemp := s.localTemp ++ [(local_temp_path, text)] })

/-- `Role.remote_exists` (`test -f path`) in the files-only remote model. -/
def remote_exists (path : String) (s : FS) : Bool :=
  (lookupA path s.remote).isSome

/-- `Role.md5_local`: digest of the local file's content. -/
def md5_local (env : Env) (path : String) (s : FS) : String :=
  env.md5 ((lookupA path s.localTemp).getD "")

/-- `Role.md5_remote`: digest of the remote file's content, computed by
a remote command. -/
def md5_remote (env : Env) (path : String) (s : FS) : String :=
  env.md5 ((lookupA path s.remote).getD "")

/-- `split(path)[-1]` on a local path. -/
def baseName (path : String) : String :=
  (path.splitOn "/").getLastD path

/-- `fabric.put(from_file, to_file)`: upload a local file as the session
user; fails when the transport fails, mutating nothing in that case. -/
def putUpload (env : Env) (from_file to_file : String) (s : FS) :
    Except Unit Unit × FS :=
  if env.putOk then
    (Except.ok (),
      { s with remote := setA to_file ((lookupA from_file s.localTemp).getD "") s.remote,
               trace := s.trace ++ [MutOp.upload from_file to_file] })
  else (Except.error (), s)

/-- `Role.put_file`: with sudo', upload to a neutral remote temp path and
then copy with a privileged `cp`; otherwise upload directly. -/
def put_file (env : Env) (from_file to_file : String) (sudo' : Bool) (s : FS) :
    Except Unit Unit × FS :=
  if sudo' then
    let temp_path := env.remoteTmp ++ "/" ++ baseName from_file
    match putUpload env from_file temp_path s with
    | (Except.error e, s1) => (Except.error e, s1)
    | (Except.ok _, s1) =>
      (Except.ok (),
        { s1 with remote := setA to_file ((lookupA temp_path s1.remote).getD "") s1.remote,
                  trace := s1.trace ++ [MutOp.cpSudo temp_path to_file] })
  else putUpload env from_file to_file s

/-- `Role.change_file_owner`: a privileged `chown` on the remote host. -/
def change_file_owner (path owner : String) (s : FS) : FS :=
  { s with trace := s.trace ++ [MutOp.chown path owner] }

/-- The `finally` block of `update_file`: `os.remove(local_temp_path)`
when the temp file exists. -/
def removeTempF (path : String) (s : FS) : FS :=
  { s with localTemp := s.localTemp.filter (fun q => q.1 != path) }

/-- `Role.update_file`: render, write to a local temp file, transfer
when the destination is absent or its digest differs (trimmed,
case-sensitive string comparison), apply the owner change after a
transfer when requested, and delete the local temp file on every exit
path (`try`/`finally`). -/
def update_file (env : Env) (from_file to_file : String) (owner : Option String)
    (options : List (String × String)) (sudo' : Bool) (s : FS) :
    Except Unit Bool × FS :=
  match env.render from_file options with
  | Except.error e => (Except.error e, s)
  | Except.ok template =>
    let (local_temp_path, s1) := write_to_temp_file template s
    if !(remote_exists to_file s1) then
      match put_file env local_temp_path to_file sudo' s1 with
      | (Except.error e, s2) => (Except.error e, removeTempF local_temp_path s2)
      | (Except.ok _, s2) =>
        let s3 := match owner with
          | some o => change_file_owner to_file o s2
          | none => s2
        (Except.ok true, removeTempF local_temp_path s3)
    else
      let from_md5 := md5_local env local_temp_path s1
      let to_md5 := md5_remote env to_file s1
      if from_md5.trim ≠ to_md5.trim then
        match put_file env local_temp_path to_file sudo' s1 with
        | (Except.error e, s2) => (Except.error e, removeTempF local_temp_path s2)
        | (Except.ok _, s2) =>
          let s3 := match owner with
            | some o => change_file_owner to_file o s2
            | none => s2
          (Except.ok true, removeTempF local_temp_path s3)
      else
        (Except.ok false, removeTempF local_temp_path s1)

/-- The trace a successful transfer appends: two steps under sudo'
(upload to the neutral temp path, privileged copy), one direct upload
otherwise. -/
def transferTrace (env : Env) (local_temp_path to_file : String) (sudo' : Bool) :
    List MutOp :=
  if sudo' then
    [MutOp.upload local_temp_path (env.remoteTmp ++ "/" ++ baseName local_temp_path),
     MutOp.cpSudo (env.remoteTmp ++ "/" ++ baseName local_temp_path) to_file]
  else [MutOp.upload local_temp_path to_file]

/-- The trace the owner change appends. -/
def ownerTrace (to_file : String) : Option String → List MutOp
  | some o => [MutOp.chown to_file o]
  | none => []

/-- The remote table after a successful transfer of `content`. -/
def transferredRemote (env : Env) (local_temp_path to_file content : String)
    (sudo' : Bool) (r : List (String × String)) : List (String × String) :=
  if sudo' then
    setA to_file content
      (setA (env.remoteTmp ++ "/" ++ baseName local_temp_path) content r)
  else setA to_file content r

/-- The state after a changed push: destination (and, under sudo, the
neutral remote temp path) holds the rendered content, the local temp
file is gone again, and the trace grew by the transfer and owner ops. -/
def changedFS (env : Env) (to_file template : String) (owner : Option String)
    (sudo' : Bool) (s : FS) : FS :=
  { remote := transferredRemote env (tempName s.nextTemp) to_file template sudo' s.remote,
    localTemp := s.localTemp,
    nextTemp := s.nextTemp + 1,
    trace := s.trace ++ transferTrace env (tempName s.nextTemp) to_file sudo'
               ++ ownerTrace to_file owner }

/-- The state after an unchanged push: only the local temp counter moved. -/
def unchangedFS (s : FS) : FS :=
  { s with nextTemp := s.nextTemp + 1 }

theorem lookupA_none_keys {α : Type} (p : String) (l : List (String × α))
    (h : lookupA p l = none) : ∀ q ∈ l, q.1 ≠ p := by
  induction l with
  | nil => intro q hq; cases hq
  | cons hd tl ih =>
    intro q hq
    by_cases hp : p = hd.1
    · simp [lookupA, hp] at h
    · simp only [lookupA, if_neg hp] at h
      rcases List.mem_cons.mp hq with hq | hq
      · subst hq; exact fun hcon => hp hcon.symm
      · exact ih h q hq

theorem lookupA_append_fresh {α : Type} (p : String) (v : α) (l : List (String × α))
    (h : lookupA p l = none) : lookupA p (l ++ [(p, v)]) = some v := by
  induction l with
  | nil => simp [lookupA]
  | cons hd tl ih =>
    by_cases hp : p = hd.1
    · simp [lookupA, hp] at h
    · simp only [lookupA, if_neg hp] at h
      simp only [List.cons_append, lookupA, if_neg hp]
      exact ih h

theorem filter_append_fresh {α : Type} (p : String) (v : α) (l : List (String × α))
    (h : lookupA p l = none) :
    (l ++ [(p, v)]).filter (fun q => q.1 != p) = l := by
  have hkeys := lookupA_none_keys p l h
  rw [List.filter_append]
  have h1 : l.filter (fun q => q.1 != p) = l := by
    apply List.filter_eq_self.mpr
    intro a ha
    simp [hkeys a ha]
  have h2 : ([(p, v)] : List (String × α)).filter (fun q => q.1 != p) = [] := by
    simp
  rw [h1, h2, List.append_nil]

theorem put_file_localTemp (env : Env) (a b : String) (su : Bool) (st : FS) :
    ((put_file env a b su st).2).localTemp = st.localTemp := by
  unfold put_file putUpload
  cases su <;> cases hp : env.putOk <;> simp

theorem put_file_nextTemp (env : Env) (a b : String) (su : Bool) (st : FS) :
    ((put_file env a b su st).2).nextTemp = st.nextTemp := by
  unfold put_file putUpload
  cases su <;> cases hp : env.putOk <;> simp

/-- Characterization of `update_file` when the destination is absent. -/
theorem update_file_absent (env : Env) (template from_file to_file : String)
    (owner : Option String) (options : List (String × String)) (sudo' : Bool) (s : FS)
    (hput : env.putOk = true)
    (hren : env.render from_file options = Except.ok template)
    (hfresh : lookupA (tempName s.nextTemp) s.localTemp = none)
    (habs : lookupA to_file s.remote = none) :
    update_file env from_file to_file owner options sudo' s
      = (Except.ok true, changedFS env to_file template owner sudo' s) := by
  have hlook := lookupA_append_fresh (tempName s.nextTemp) template s.localTemp hfresh
  have hfil := filter_append_fresh (tempName s.nextTemp) template s.localTemp hfresh
  unfold update_file write_to_temp_file remote_exists put_file putUpload
    change_file_owner removeTempF changedFS transferredRemote transferTrace ownerTrace
  cases sudo' <;> cases owner <;>
    simp [hren, hput, habs, hlook, hfil, lookupA_setA_self, List.append_assoc]

/-- Characterization of `update_file` when the destination exists and
the trimmed digests differ. -/
theorem update_file_diff (env : Env) (template from_file to_file c : String)
    (owner : Option String) (options : List (String × String)) (sudo' : Bool) (s : FS)
    (hput : env.putOk = true)
    (hren : env.render from_file options = Except.ok template)
    (hfresh : lookupA (tempName s.nextTemp) s.localTemp = none)
    (hex : lookupA to_file s.remote = some c)
    (hdiff : (env.md5 template).trim ≠ (env.md5 c).trim) :
    update_file env from_file to_file owner options sudo' s
      = (Except.ok true, changedFS env to_file template owner sudo' s) := by
  have hlook := lookupA_append_fresh (tempName s.nextTemp) template s.localTemp hfresh
  have hfil := filter_append_fresh (tempName s.nextTemp) template s.localTemp hfresh
  unfold update_file write_to_temp_file remote_exists put_file putUpload md5_local md5_remote
    change_file_owner removeTempF changedFS transferredRemote transferTrace ownerTrace
  cases sudo' <;> cases owner <;>
    simp [hren, hput, hex, hlook, hfil, hdiff, lookupA_setA_self, List.append_assoc]

/-- Characterization of `update_file` when the destination exists and
the trimmed digests agree: no transfer, no owner change, `changed=false`. -/
theorem update_file_same (env : Env) (template from_file to_file c : String)
    (owner : Option String) (options : List (String × String)) (sudo' : Bool) (s : FS)
    (hren : env.render from_file options = Except.ok template)
    (hfresh : lookupA (tempName s.nextTemp) s.localTemp = none)
    (hex : lookupA to_file s.remote = some c)
    (heq : (env.md5 template).trim = (env.md5 c).trim) :
    update_file env from_file to_file owner options sudo' s
      = (Except.ok false, unchangedFS s) := by
  have hlook := lookupA_append_fresh (tempName s.nextTemp) template s.localTemp hfresh
  have hfil := filter_append_fresh (tempName s.nextTemp) template s.localTemp hfresh
  unfold update_file write_to_temp_file remote_exists md5_local md5_remote
    removeTempF unchangedFS
  simp [hren, hex, hlook, hfil, heq]

/-- When rendering succeeds but the transport fails, `update_file` still
leaves only the temp counter moved (the temp file is deleted, nothing
remote changes). -/
theorem update_file_putfail (env : Env) (template from_file to_file : String)
    (owner : Option String) (options : List (String × String)) (sudo' : Bool) (s : FS)
    (hput : env.putOk = false)
    (hren : env.render from_file options = Except.ok template)
    (hfresh : lookupA (tempName s.nextTemp) s.localTemp = none) :
    ((update_file env from_file to_file owner options sudo' s).2) = unchangedFS s := by
  have hfil := filter_append_fresh (tempName s.nextTemp) template s.localTemp hfresh
  unfold update_file write_to_temp_file remote_exists put_file putUpload md5_local
    md5_remote removeTempF unchangedFS
  cases sudo' <;> simp [hren, hput, hfil] <;> split <;>
    first
    | rfl
    | (split <;> rfl)

/-- On every exit path, `update_file` restores the local temp table. -/
theorem update_file_snd_localTemp (env : Env) (from_file to_file : String)
    (owner : Option String) (options : List (String × String)) (sudo' : Bool) (s : FS)
    (hfresh : lookupA (tempName s.nextTemp) s.localTemp = none) :
    ((update_file env from_file to_file owner options sudo' s).2).localTemp
      = s.localTemp := by
  cases hr : env.render from_file options with
  | error e => simp [update_file, hr]
  | ok template =>
    cases hput : env.putOk with
    | false =>
      rw [update_file_putfail env template from_file to_file owner options sudo' s
        hput hr hfresh]
      rfl
    | true =>
      cases hex : lookupA to_file s.remote with
      | none =>
        rw [update_file_absent env template from_file to_file owner options sudo' s
          hput hr hfresh hex]
        rfl
      | some c =>
        by_cases heq : (env.md5 template).trim = (env.md5 c).trim
        · rw [update_file_same env template from_file to_file c owner options sudo' s
            hr hfresh hex heq]
          rfl
        · rw [update_file_diff env template from_file to_file c owner options sudo' s
            hput hr hfresh hex heq]
          rfl

theorem changedFS_lookup (env : Env) (to_file template : String)
    (owner : Option String) (sudo' : Bool) (s : FS) :
    lookupA to_file (changedFS env to_file template owner sudo' s).remote
      = some template := by
  cases sudo' <;> simp [changedFS, transferredRemote, lookupA_setA_self]

/-- C1: `update_file` transfers the rendered temp file when the
destination is absent on the target (applying the owner change exactly
when one was requested) and returns `changed=true`; when the destination
exists, the local and remote digests are compared as case-sensitive
trimmed strings — on a difference it transfers (owner applied if
requested) and returns `changed=true`, on equality it performs no
transfer and returns `changed=false`. -/
theorem update_file_push_spec (env : Env) (template from_file to_file c : String)
    (owner : Option String) (options : List (String × String)) (sudo' : Bool)
    (sA sE : FS)
    (hput : env.putOk = true)
    (hren : env.render from_file options = Except.ok template)
    (hfreshA : lookupA (tempName sA.nextTemp) sA.localTemp = none)
    (hfreshE : lookupA (tempName sE.nextTemp) sE.localTemp = none)
    (habs : lookupA to_file sA.remote = none)
    (hex : lookupA to_file sE.remote = some c) :
    (update_file env from_file to_file owner options sudo' sA
        = (Except.ok true, changedFS env to_file template owner sudo' sA))
      ∧ lookupA to_file (changedFS env to_file template owner sudo' sA).remote
          = some template
      ∧ (update_file env from_file to_file owner options sudo' sE
          = if (env.md5 template).trim = (env.md5 c).trim
            then (Except.ok false, unchangedFS sE)
            else (Except.ok true, changedFS env to_file template owner sudo' sE))
      ∧ (unchangedFS sE).remote = sE.remote
      ∧ (unchangedFS sE).trace = sE.trace := by
  refine ⟨update_file_absent env template from_file to_file owner options sudo' sA
            hput hren hfreshA habs,
          changedFS_lookup env to_file template owner sudo' sA, ?_, rfl, rfl⟩
  by_cases heq : (env.md5 template).trim = (env.md5 c).trim
  · rw [if_pos heq]
    exact update_file_same env template from_file to_file c owner options sudo' sE
      hren hfreshE hex heq
  · rw [if_neg heq]
    exact update_file_diff env template from_file to_file c owner options sudo' sE
      hput hren hfreshE hex heq

/-- Concrete environment for witnesses: identity digest, a renderer
that always produces `port=8080`, a working transport. -/
def envW : Env :=
  { md5 := fun s => s, render := fun _ _ => Except.ok "port=8080",
    remoteTmp := "/tmp", putOk := true }

def sAW : FS := ⟨[], [], 0, []⟩

def sEW : FS := ⟨[("/etc/app.conf", "old")], [], 0, []⟩

theorem update_file_push_spec_witness :
    (update_file envW "app.conf" "/etc/app.conf" (some "root") [] false sAW
        = (Except.ok true, changedFS envW "/etc/app.conf" "port=8080" (some "root") false sAW))
      ∧ lookupA "/etc/app.conf"
          (changedFS envW "/etc/app.conf" "port=8080" (some "root") false sAW).remote
            = some "port=8080"
      ∧ (update_file envW "app.conf" "/etc/app.conf" (some "root") [] false sEW
          = if (envW.md5 "port=8080").trim = (envW.md5 "old").trim
            then (Except.ok false, unchangedFS sEW)
            else (Except.ok true, changedFS envW "/etc/app.conf" "port=8080" (some "root") false sEW))
      ∧ (unchangedFS sEW).remote = sEW.remote
      ∧ (unchangedFS sEW).trace = sEW.trace :=
  update_file_push_spec envW "port=8080" "app.conf" "/etc/app.conf" "old"
    (some "root") [] false sAW sEW rfl rfl rfl rfl rfl (by simp [sEW, lookupA])

theorem provisioned_state_lookup (env : Env) (template f t : String)
    (owner : Option String) (opts : List (String × String)) (sudo' : Bool) (s : FS)
    (hput : env.putOk = true)
    (hren : env.render f opts = Except.ok template)
    (hfreshAll : ∀ n, lookupA (tempName n) s.localTemp = none) :
    ∃ c, lookupA t ((update_file env f t owner opts sudo' s).2).remote = some c
      ∧ (env.md5 c).trim = (env.md5 template).trim := by
  cases hex : lookupA t s.remote with
  | none =>
    rw [update_file_absent env template f t owner opts sudo' s hput hren
      (hfreshAll s.nextTemp) hex]
    exact ⟨template, changedFS_lookup env t template owner sudo' s, rfl⟩
  | some c =>
    by_cases heq : (env.md5 template).trim = (env.md5 c).trim
    · rw [update_file_same env template f t c owner opts sudo' s hren
        (hfreshAll s.nextTemp) hex heq]
      exact ⟨c, hex, heq.symm⟩
    · rw [update_file_diff env template f t c owner opts sudo' s hput hren
        (hfreshAll s.nextTemp) hex heq]
      exact ⟨template, changedFS_lookup env t template owner sudo' s, rfl⟩

/-- C2 (amended): with an unchanged template, the first `update_file`
call returns `changed=true` when the destination is absent or its
trimmed digest differs from the rendered content's (when the destination
already matches, the first call already returns `changed=false`); after
the first call the remote content's trimmed digest equals the trimmed
digest of the locally rendered content; and the second call always
returns `changed=false`. -/
theorem update_file_push_idem (env : Env) (template f t : String)
    (owner : Option String) (opts : List (String × String)) (sudo' : Bool) (s : FS)
    (hput : env.putOk = true)
    (hren : env.render f opts = Except.ok template)
    (hfreshAll : ∀ n, lookupA (tempName n) s.localTemp = none) :
    ((lookupA t s.remote = none
        ∨ ∃ c, lookupA t s.remote = some c
            ∧ (env.md5 template).trim ≠ (env.md5 c).trim) →
       (update_file env f t owner opts sudo' s).1 = Except.ok true)
      ∧ (∃ c, lookupA t ((update_file env f t owner opts sudo' s).2).remote = some c
            ∧ (env.md5 c).trim = (env.md5 template).trim)
      ∧ (update_file env f t owner opts sudo'
           ((update_file env f t owner opts sudo' s).2)).1 = Except.ok false := by
  refine ⟨?_, provisioned_state_lookup env template f t owner opts sudo' s
            hput hren hfreshAll, ?_⟩
  · rintro (hex | ⟨c, hex, hdiff⟩)
    · rw [update_file_absent env template f t owner opts sudo' s hput hren
        (hfreshAll s.nextTemp) hex]
    · rw [update_file_diff env template f t c owner opts sudo' s hput hren
        (hfreshAll s.nextTemp) hex hdiff]
  · obtain ⟨c, hlook, heq⟩ := provisioned_state_lookup env template f t owner opts
      sudo' s hput hren hfreshAll
    have hloc : ((update_file env f t owner opts sudo' s).2).localTemp = s.localTemp :=
      update_file_snd_localTemp env f t owner opts sudo' s (hfreshAll s.nextTemp)
    have hfresh2 : lookupA (tempName ((update_file env f t owner opts sudo' s).2).nextTemp)
        ((update_file env f t owner opts sudo' s).2).localTemp = none := by
      rw [hloc]; exact hfreshAll _
    rw [update_file_same env template f t c owner opts sudo'
      ((update_file env f t owner opts sudo' s).2) hren hfresh2 hlook heq.symm]

theorem update_file_push_idem_witness :
    ((lookupA "/etc/app.conf" sAW.remote = none
        ∨ ∃ c, lookupA "/etc/app.conf" sAW.remote = some c
            ∧ (envW.md5 "port=8080").trim ≠ (envW.md5 c).trim) →
       (update_file envW "app.conf" "/etc/app.conf" none [] false sAW).1 = Except.ok true)
      ∧ (∃ c, lookupA "/etc/app.conf"
            ((update_file envW "app.conf" "/etc/app.conf" none [] false sAW).2).remote = some c
          ∧ (envW.md5 c).trim = (envW.md5 "port=8080").trim)
      ∧ (update_file envW "app.conf" "/etc/app.conf" none [] false
           ((update_file envW "app.conf" "/etc/app.conf" none [] false sAW).2)).1
          = Except.ok false :=
  update_file_push_idem envW "port=8080" "app.conf" "/etc/app.conf" none [] false sAW
    rfl rfl (fun _ => rfl)

/-- C2 counterexample: when the destination already holds the rendered
content, the *first* call already returns `changed=false` (and so does
the second), contradicting "changed=true on the first call". -/
theorem update_file_push_twice_counterexample :
    (update_file envW "app.conf" "/etc/app.conf" none [] false
        ⟨[("/etc/app.conf", "port=8080")], [], 0, []⟩).1 = Except.ok false
      ∧ (update_file envW "app.conf" "/etc/app.conf" none [] false
          ((update_file envW "app.conf" "/etc/app.conf" none [] false
              ⟨[("/etc/app.conf", "port=8080")], [], 0, []⟩).2)).1 = Except.ok false := by
  have h1 := update_file_same envW "port=8080" "app.conf" "/etc/app.conf" "port=8080"
    none [] false ⟨[("/etc/app.conf", "port=8080")], [], 0, []⟩ rfl rfl (by decide) rfl
  have h2 := update_file_same envW "port=8080" "app.conf" "/etc/app.conf" "port=8080"
    none [] false (unchangedFS ⟨[("/etc/app.conf", "port=8080")], [], 0, []⟩)
    rfl rfl (by decide) rfl
  constructor
  · rw [h1]
  · rw [h1]
    dsimp only
    rw [h2]

/-- C5: when rendering fails no remote command is issued at all and the
state is untouched (in particular nothing altered the destination and no
temp file was created); and on every exit path of `update_file` — for an
arbitrary environment, so including transfer failure, a changed push and
an unchanged no-op — the local temp-file table is restored, so the temp
file created for the rendered content no longer exists. -/
theorem update_file_failure_spec (env envF : Env) (f t : String) (owner : Option String)
    (opts : List (String × String)) (sudo' : Bool) (s : FS) (e : Unit)
    (hfail : envF.render f opts = Except.error e)
    (hfresh : lookupA (tempName s.nextTemp) s.localTemp = none) :
    update_file envF f t owner opts sudo' s = (Except.error e, s)
      ∧ ((update_file env f t owner opts sudo' s).2).localTemp = s.localTemp
      ∧ lookupA (tempName s.nextTemp)
          ((update_file env f t owner opts sudo' s).2).localTemp = none := by
  refine ⟨by simp [update_file, hfail], ?_, ?_⟩
  · exact update_file_snd_localTemp env f t owner opts sudo' s hfresh
  · rw [update_file_snd_localTemp env f t owner opts sudo' s hfresh]
    exact hfresh

/-- Environment whose renderer fails and whose transport fails. -/
def envFW : Env :=
  { md5 := fun s => s, render := fun _ _ => Except.error (),
    remoteTmp := "/tmp", putOk := false }

theorem update_file_failure_spec_witness :
    update_file envFW "app.conf" "/etc/app.conf" none [] true sAW
        = (Except.error (), sAW)
      ∧ ((update_file envFW "app.conf" "/etc/app.conf" none [] true sAW).2).localTemp
          = sAW.localTemp
      ∧ lookupA (tempName sAW.nextTemp)
          ((update_file envFW "app.conf" "/etc/app.conf" none [] true sAW).2).localTemp
            = none :=
  update_file_failure_spec envFW envFW "app.conf" "/etc/app.conf" none [] true sAW ()
    rfl rfl

/-- C6: with elevated privilege, `put_file` uploads to the neutral
remote temp path and then issues a privileged copy to the destination —
two steps, the only direct upload targeting the temp path — while
without elevation it uploads directly to the destination in one step. -/
theorem put_file_two_step (env : Env) (from_file to_file : String) (s : FS)
    (hput : env.putOk = true) :
    put_file env from_file to_file true s
        = (Except.ok (),
           { s with
               remote := setA to_file ((lookupA from_file s.localTemp).getD "")
                 (setA (env.remoteTmp ++ "/" ++ baseName from_file)
                   ((lookupA from_file s.localTemp).getD "") s.remote),
               trace := s.trace
                 ++ [MutOp.upload from_file (env.remoteTmp ++ "/" ++ baseName from_file),
                     MutOp.cpSudo (env.remoteTmp ++ "/" ++ baseName from_file) to_file] })
      ∧ put_file env from_file to_file false s
          = (Except.ok (),
             { s with
                 remote := setA to_file ((lookupA from_file s.localTemp).getD "") s.remote,
                 trace := s.trace ++ [MutOp.upload from_file to_file] }) := by
  unfold put_file putUpload
  simp [hput, lookupA_setA_self, List.append_assoc]

theorem put_file_two_step_witness :
    put_file envW "/tmp/tmp0" "/etc/root-only.conf" true ⟨[], [("/tmp/tmp0", "secret")], 1, []⟩
        = (Except.ok (),
           { remote := setA "/etc/root-only.conf"
               ((lookupA "/tmp/tmp0" [("/tmp/tmp0", "secret")]).getD "")
               (setA (envW.remoteTmp ++ "/" ++ baseName "/tmp/tmp0")
                 ((lookupA "/tmp/tmp0" [("/tmp/tmp0", "secret")]).getD "") []),
             localTemp := [("/tmp/tmp0", "secret")],
             nextTemp := 1,
             trace := []
               ++ [MutOp.upload "/tmp/tmp0" (envW.remoteTmp ++ "/" ++ baseName "/tmp/tmp0"),
                   MutOp.cpSudo (envW.remoteTmp ++ "/" ++ baseName "/tmp/tmp0") "/etc/root-only.conf"] })
      ∧ put_file envW "/tmp/tmp0" "/etc/root-only.conf" false ⟨[], [("/tmp/tmp0", "secret")], 1, []⟩
          = (Except.ok (),
             { remote := setA "/etc/root-only.conf"
                 ((lookupA "/tmp/tmp0" [("/tmp/tmp0", "secret")]).getD "") [],
               localTemp := [("/tmp/tmp0", "secret")],
               nextTemp := 1,
               trace := [] ++ [MutOp.upload "/tmp/tmp0" "/etc/root-only.conf"] }) :=
  put_file_two_step envW "/tmp/tmp0" "/etc/root-only.conf"
    ⟨[], [("/tmp/tmp0", "secret")], 1, []⟩ rfl

end FilePush

/-! ## Symlink convergence (`remote_symlink`) -/

namespace Symlink

/-- A remote filesystem entry: a regular file or a symlink. -/
inductive REntry where
  | file (content : String)
  | link (target : String)
  deriving Repr, DecidableEq

/-- Remote state for symlink operations: the entry table and the trace
of executed `ln -sf <from> <to>` commands. -/
structure LS where
  remote : List (String × REntry)
  trace : List (String × String)
  deriving Repr, DecidableEq

/-- Whether `test -f path` succeeds: the path, following symlinks,
reaches a regular file (fuel-bounded resolution). -/
def resolvesToFile (r : List (String × REntry)) : Nat → String → Bool
  | 0, _ => false
  | fuel + 1, p =>
    match lookupA p r with
    | some (REntry.file _) => true
    | some (REntry.link t) => resolvesToFile r fuel t
    | none => false

/-- `Role.remote_exists` (`test -f path`) in the entry model; the fuel
exceeds the table size, so every chain that can resolve does. -/
def remote_exists_s (path : String) (s : LS) : Bool :=
  resolvesToFile s.remote (s.remote.length + 1) path

/-- `'->' in result` on the `ls -la` listing of the entry: the listing
of a symlink shows `name -> target`, a regular file's does not. -/
def ls_shows_link : REntry → Bool
  | REntry.link _ => true
  | REntry.file _ => false

/-- `result.split('->')[-1].strip()` on the `ls -la` listing of a
symlink: the link's target, verbatim. -/
def ls_link_target : REntry → String
  | REntry.link t => t
  | REntry.file _ => ""

/-- Executing `ln -sf from_file to_file`: force-replace the destination
entry with a symlink and record the command. -/
def lnSf (from_file to_file : String) (s : LS) : LS :=
  { remote := setA to_file (REntry.link from_file) s.remote,
    trace := s.trace ++ [(from_file, to_file)] }

/-- `Role.remote_symlink`: raise when the source is missing; when the
destination exists and its listing shows a link whose parsed target
differs from the source, force-recreate and return `True`; when the
destination does not exist, create and return `True`; otherwise fall
through to `return False`. -/
def remote_symlink (from_file to_file : String) (s : LS) : Except String Bool × LS :=
  if !(remote_exists_s from_file s) then
    (Except.error ("The file to create a symlink from (" ++ from_file
        ++ ") was not found!"), s)
  else if remote_exists_s to_file s then
    match lookupA to_file s.remote with
    | some e =>
      if ls_shows_link e then
        if ls_link_target e ≠ from_file then
          (Except.ok true, lnSf from_file to_file s)
        else (Except.ok false, s)
      else (Except.ok false, s)
    | none => (Except.ok false, s)
  else
    (Except.ok true, lnSf from_file to_file s)

theorem resolves_of_file (r : List (String × REntry)) (p c : String) (fuel : Nat)
    (h : lookupA p r = some (REntry.file c)) (hf : 1 ≤ fuel) :
    resolvesToFile r fuel p = true := by
  obtain ⟨m, rfl⟩ : ∃ m, fuel = m + 1 := ⟨fuel - 1, by omega⟩
  simp [resolvesToFile, h]

theorem resolves_none (r : List (String × REntry)) (p : String)
    (h : lookupA p r = none) : ∀ fuel, resolvesToFile r fuel p = false := by
  intro fuel
  cases fuel with
  | zero => rfl
  | succ m => simp [resolvesToFile, h]

theorem resolves_step (r : List (String × REntry)) (p t : String) (fuel : Nat)
    (h : lookupA p r = some (REntry.link t)) :
    resolvesToFile r (fuel + 1) p = resolvesToFile r fuel t := by
  simp [resolvesToFile, h]

theorem lookupA_some_length {α : Type} (k : String) (v : α) (l : List (String × α))
    (h : lookupA k l = some v) : 1 ≤ l.length := by
  cases l with
  | nil => simp [lookupA] at h
  | cons hd tl => simp

theorem sym_src_exists (f c : String) (s : LS)
    (h : lookupA f s.remote = some (REntry.file c)) :
    remote_exists_s f s = true :=
  resolves_of_file s.remote f c (s.remote.length + 1) h (by omega)

theorem sym_absent (f t c : String) (s : LS)
    (hsrc : lookupA f s.remote = some (REntry.file c))
    (habs : lookupA t s.remote = none) :
    remote_symlink f t s = (Except.ok true, lnSf f t s) := by
  have h1 := sym_src_exists f c s hsrc
  have h2 : remote_exists_s t s = false := resolves_none s.remote t habs _
  simp [remote_symlink, h1, h2]

theorem sym_wrong (f t q c : String) (s : LS)
    (hsrc : lookupA f s.remote = some (REntry.file c))
    (hlink : lookupA t s.remote = some (REntry.link q)) (hq : q ≠ f) :
    remote_symlink f t s = (Except.ok true, lnSf f t s) := by
  have h1 := sym_src_exists f c s hsrc
  cases hex : remote_exists_s t s with
  | false => simp [remote_symlink, h1, hex]
  | true =>
    simp [remote_symlink, h1, hex, hlink, ls_shows_link, ls_link_target, hq]

theorem sym_correct (f t c : String) (s : LS)
    (hsrc : lookupA f s.remote = some (REntry.file c))
    (hdst : lookupA t s.remote = some (REntry.link f)) :
    remote_symlink f t s = (Except.ok false, s) := by
  have h1 := sym_src_exists f c s hsrc
  have hlen : 1 ≤ s.remote.length := lookupA_some_length f _ s.remote hsrc
  have hex : remote_exists_s t s = true := by
    unfold remote_exists_s
    rw [resolves_step s.remote t f s.remote.length hdst]
    exact resolves_of_file s.remote f c s.remote.length hsrc hlen
  simp [remote_symlink, h1, hex, hdst, ls_shows_link, ls_link_target]

theorem sym_nonlink (f t c' : String) (s : LS)
    (hsrc : remote_exists_s f s = true)
    (hdst : lookupA t s.remote = some (REntry.file c')) :
    remote_symlink f t s = (Except.ok false, s) := by
  have hex : remote_exists_s t s = true :=
    resolves_of_file s.remote t c' (s.remote.length + 1) hdst (by omega)
  simp [remote_symlink, hsrc, hex, hdst, ls_shows_link]

theorem sym_second (f t c : String) (s : LS)
    (hsrc : lookupA f s.remote = some (REntry.file c)) :
    (remote_symlink f t ((remote_symlink f t s).2)).1 = Except.ok false := by
  cases hdst : lookupA t s.remote with
  | none =>
    have htf : t ≠ f := by
      intro h; rw [h, hsrc] at hdst; cases hdst
    rw [sym_absent f t c s hsrc hdst]
    have hdst1 : lookupA t (lnSf f t s).remote = some (REntry.link f) := by
      simp [lnSf, lookupA_setA_self]
    have hsrc1 : lookupA f (lnSf f t s).remote = some (REntry.file c) := by
      simp only [lnSf]
      rw [lookupA_setA_other t f (REntry.link f) s.remote (fun h => htf h.symm)]
      exact hsrc
    rw [sym_correct f t c (lnSf f t s) hsrc1 hdst1]
  | some e =>
    cases e with
    | file c' =>
      have h1 := sym_src_exists f c s hsrc
      rw [sym_nonlink f t c' s h1 hdst]
      rw [sym_nonlink f t c' s h1 hdst]
    | link q =>
      have htf : t ≠ f := by
        intro h; rw [h, hsrc] at hdst; cases hdst
      by_cases hq : q = f
      · rw [hq] at hdst
        rw [sym_correct f t c s hsrc hdst]
        rw [sym_correct f t c s hsrc hdst]
      · rw [sym_wrong f t q c s hsrc hdst hq]
        have hdst1 : lookupA t (lnSf f t s).remote = some (REntry.link f) := by
          simp [lnSf, lookupA_setA_self]
        have hsrc1 : lookupA f (lnSf f t s).remote = some (REntry.file c) := by
          simp only [lnSf]
          rw [lookupA_setA_other t f (REntry.link f) s.remote (fun h => htf h.symm)]
          exact hsrc
        rw [sym_correct f t c (lnSf f t s) hsrc1 hdst1]

/-- C7: when the source path does not exist on the target,
`remote_symlink` fails with the "was not found" error and the state —
remote entries and command trace alike — is untouched. -/
theorem remote_symlink_missing_source (from_file to_file : String) (s : LS)
    (h : remote_exists_s from_file s = false) :
    remote_symlink from_file to_file s
      = (Except.error ("The file to create a symlink from (" ++ from_file
          ++ ") was not found!"), s) := by
  simp [remote_symlink, h]

theorem remote_symlink_missing_source_witness :
    remote_symlink "/opt/app" "/usr/bin/app" ⟨[], []⟩
      = (Except.error ("The file to create a symlink from (" ++ "/opt/app"
          ++ ") was not found!"), ⟨[], []⟩) :=
  remote_symlink_missing_source "/opt/app" "/usr/bin/app" ⟨[], []⟩ rfl

/-- C8 counterexample: when the destination already points at the
desired source, the *first* call already returns `changed=false` (and so
does the second), contradicting "twice yields changed=true then
changed=false". -/
theorem remote_symlink_twice_counterexample :
    (remote_symlink "/opt/app" "/usr/bin/app"
        ⟨[("/opt/app", REntry.file "x"), ("/usr/bin/app", REntry.link "/opt/app")], []⟩).1
        = Except.ok false
      ∧ (remote_symlink "/opt/app" "/usr/bin/app"
          ((remote_symlink "/opt/app" "/usr/bin/app"
              ⟨[("/opt/app", REntry.file "x"),
                ("/usr/bin/app", REntry.link "/opt/app")], []⟩).2)).1
          = Except.ok false := by
  constructor
  · rw [sym_correct "/opt/app" "/usr/bin/app" "x" _ (by decide) (by decide)]
  · exact sym_second "/opt/app" "/usr/bin/app" "x" _ (by decide)

/-- C8 (amended): with an existing regular-file source — when the
destination does not exist the symlink is created and the call returns
`changed=true`; when the destination is a symlink whose parsed target
differs from the source it is forcibly recreated and the call returns
`changed=true`; when the destination already points at the source the
call returns `changed=false` with no mutation; and the *second* of two
consecutive calls always returns `changed=false` (the first returns
`changed=true` exactly in the first two situations — a destination that
already points at the source, or that exists as a non-symlink, already
yields `changed=false` on the first call). -/
theorem remote_symlink_spec (from_file to_file q cA cL cE cD : String)
    (sA sL sE sD : LS)
    (hsrcA : lookupA from_file sA.remote = some (REntry.file cA))
    (habs : lookupA to_file sA.remote = none)
    (hsrcL : lookupA from_file sL.remote = some (REntry.file cL))
    (hlink : lookupA to_file sL.remote = some (REntry.link q))
    (hq : q ≠ from_file)
    (hsrcE : lookupA from_file sE.remote = some (REntry.file cE))
    (heqE : lookupA to_file sE.remote = some (REntry.link from_file))
    (hsrcD : lookupA from_file sD.remote = some (REntry.file cD)) :
    remote_symlink from_file to_file sA = (Except.ok true, lnSf from_file to_file sA)
      ∧ remote_symlink from_file to_file sL
          = (Except.ok true, lnSf from_file to_file sL)
      ∧ remote_symlink from_file to_file sE = (Except.ok false, sE)
      ∧ (remote_symlink from_file to_file
           ((remote_symlink from_file to_file sD).2)).1 = Except.ok false :=
  ⟨sym_absent from_file to_file cA sA hsrcA habs,
   sym_wrong from_file to_file q cL sL hsrcL hlink hq,
   sym_correct from_file to_file cE sE hsrcE heqE,
   sym_second from_file to_file cD sD hsrcD⟩

theorem remote_symlink_spec_witness :
    remote_symlink "/opt/app-v2" "/usr/bin/app" ⟨[("/opt/app-v2", REntry.file "x")], []⟩
        = (Except.ok true,
           lnSf "/opt/app-v2" "/usr/bin/app" ⟨[("/opt/app-v2", REntry.file "x")], []⟩)
      ∧ remote_symlink "/opt/app-v2" "/usr/bin/app"
          ⟨[("/opt/app-v2", REntry.file "x"),
            ("/usr/bin/app", REntry.link "/opt/app-v1")], []⟩
          = (Except.ok true,
             lnSf "/opt/app-v2" "/usr/bin/app"
               ⟨[("/opt/app-v2", REntry.file "x"),
                 ("/usr/bin/app", REntry.link "/opt/app-v1")], []⟩)
      ∧ remote_symlink "/opt/app-v2" "/usr/bin/app"
          ⟨[("/opt/app-v2", REntry.file "x"),
            ("/usr/bin/app", REntry.link "/opt/app-v2")], []⟩
          = (Except.ok false,
             ⟨[("/opt/app-v2", REntry.file "x"),
               ("/usr/bin/app", REntry.link "/opt/app-v2")], []⟩)
      ∧ (remote_symlink "/opt/app-v2" "/usr/bin/app"
           ((remote_symlink "/opt/app-v2" "/usr/bin/app"
               ⟨[("/opt/app-v2", REntry.file "x")], []⟩).2)).1 = Except.ok false :=
  remote_symlink_spec "/opt/app-v2" "/usr/bin/app" "/opt/app-v1" "x" "x" "x" "x"
    ⟨[("/opt/app-v2", REntry.file "x")], []⟩
    ⟨[("/opt/app-v2", REntry.file "x"), ("/usr/bin/app", REntry.link "/opt/app-v1")], []⟩
    ⟨[("/opt/app-v2", REntry.file "x"), ("/usr/bin/app", REntry.link "/opt/app-v2")], []⟩
    ⟨[("/opt/app-v2", REntry.file "x")], []⟩
    (by decide) (by decide) (by decide) (by decide) (by decide) (by decide)
    (by decide) (by decide)

/-- C10: when the source exists and the destination exists but is a
regular file (its listing shows no `->` indicator), `remote_symlink`
performs no mutation and returns `changed=false`, leaving the
non-symlink destination in place. -/
theorem remote_symlink_nonlink_dest (from_file to_file c' : String) (s : LS)
    (hsrc : remote_exists_s from_file s = true)
    (hdst : lookupA to_file s.remote = some (REntry.file c')) :
    remote_symlink from_file to_file s = (Except.ok false, s) :=
  sym_nonlink from_file to_file c' s hsrc hdst

theorem remote_symlink_nonlink_dest_witness :
    remote_symlink "/opt/app" "/usr/bin/app"
        ⟨[("/opt/app", REntry.file "x"), ("/usr/bin/app", REntry.file "y")], []⟩
      = (Except.ok false,
         ⟨[("/opt/app", REntry.file "x"), ("/usr/bin/app", REntry.file "y")], []⟩) :=
  remote_symlink_nonlink_dest "/opt/app" "/usr/bin/app" "y"
    ⟨[("/opt/app", REntry.file "x"), ("/usr/bin/app", REntry.file "y")], []⟩
    (by decide) (by decide)

end Symlink

end Provy
